import Mathlib

/-!
Shallow embedding of the I2C driver in `src/I2C/i2c.c` (header `i2c.h`,
`src/unnamed/part_000`) for the dsPIC33FJ32MC204.

Modelling conventions:
* Hardware registers are volatile; the value returned by each successive
  branching volatile read (the wait loop's guard and error-bit reads, the
  ACKSTAT read in `I2C_WriteByte`, the RCV read in `I2C_ReadByte`) is taken
  from an environment `env : Nat → Nat`, indexed by a read cursor `t`
  threaded through the system state.  Read-modify-write accesses whose read
  value the code never branches on (the `|=` bit-sets) do not consume `env`.
* Machine integers are `Nat` with explicit reductions: `uint32` arithmetic
  is `% 4294967296`, `uint8` parameter conversion is `% 256`.  On this
  target (XC16) `int` is 16 bits, so `timeout_ms * 1000` is computed in
  16-bit unsigned arithmetic: `% 65536`.
* The per-unit globals `I2C1_State/I2C2_State`, `I2C1_Busy/I2C2_Busy` and
  the two `I2C_Config_t` records live in `Sys` / `I2CConfigs`.
* `Sys.events` and `Sys.waitResults` are observation-only ghost fields:
  `events` records each bus condition or byte operation the driver starts
  (the moment the corresponding control bit is set), `waitResults` records
  the boolean result of each `_I2C_WaitCondition` call, in order.  No
  driver decision reads them.
-/

/-- The status enumeration `I2C_State_t` from i2c.h (src/unnamed/part_000,
lines 63-74). -/
inductive I2CState where
  | idle
  | busy
  | error
  | timeout
  | addrNack
  | dataNack
  | arbLost
  | busCollision
  | overrun
  | success
deriving DecidableEq

/-- Ghost observation of bus-level actions the driver initiates: a START
(`SEN` set), a STOP (`PEN` set), a byte transmission (`I2CxTRN` loaded and
transfer started), a byte reception (`ACKDT` programmed from `ack` and
`RCEN` set). -/
inductive Ev where
  | start
  | stop
  | writeByte (data : Nat)
  | readByte (ack : Bool)
deriving DecidableEq

/-- The mutable driver state: the two per-unit status globals, the two
per-unit busy globals, the volatile-read cursor `t`, and the two ghost
observation logs. -/
structure Sys where
  state1 : I2CState
  state2 : I2CState
  busy1 : Bool
  busy2 : Bool
  t : Nat
  events : List Ev
  waitResults : List Bool
deriving DecidableEq

/-- Per-unit stored configurations; only the `timeout_ms` field is read by
the operations modelled here (`_I2C_GetConfig(module)->timeout_ms`). -/
structure I2CConfigs where
  timeout1 : Nat
  timeout2 : Nat
deriving DecidableEq

/-- `_I2C_GetModuleBase` (i2c.c lines 46-52): selects the register base,
returning unit 1's base (`&I2C1CON`) for module 1 AND for any selector that
is neither 1 nor 2 (the `default:` case); unit 2's base for module 2.  The
result is encoded as the unit number the returned pointer belongs to. -/
def _I2C_GetModuleBase (module : Nat) : Nat :=
  if module = 1 then 1 else if module = 2 then 2 else 1

/-- `_I2C_GetState` (i2c.c lines 57-63): selects which per-unit state
variable (`I2C1_State` or `I2C2_State`) is referenced, with the same
`default:` fallback to unit 1. -/
def _I2C_GetState (module : Nat) : Nat :=
  if module = 1 then 1 else if module = 2 then 2 else 1

/-- `_I2C_GetBusyFlag` (i2c.c lines 68-74): selects which per-unit busy
flag (`I2C1_Busy` or `I2C2_Busy`) is referenced, defaulting to unit 1. -/
def _I2C_GetBusyFlag (module : Nat) : Nat :=
  if module = 1 then 1 else if module = 2 then 2 else 1

/-- `_I2C_GetConfig` (i2c.c lines 79-85): selects which stored
configuration is referenced, defaulting to unit 1. -/
def _I2C_GetConfig (module : Nat) : Nat :=
  if module = 1 then 1 else if module = 2 then 2 else 1

/-- Read through the pointer returned by `_I2C_GetState`. -/
def readState (s : Sys) (module : Nat) : I2CState :=
  if _I2C_GetState module = 2 then s.state2 else s.state1

/-- Write through the pointer returned by `_I2C_GetState`. -/
def writeState (s : Sys) (module : Nat) (v : I2CState) : Sys :=
  if _I2C_GetState module = 2 then { s with state2 := v } else { s with state1 := v }

/-- Read through the pointer returned by `_I2C_GetBusyFlag`. -/
def readBusy (s : Sys) (module : Nat) : Bool :=
  if _I2C_GetBusyFlag module = 2 then s.busy2 else s.busy1

/-- Write through the pointer returned by `_I2C_GetBusyFlag`. -/
def writeBusy (s : Sys) (module : Nat) (v : Bool) : Sys :=
  if _I2C_GetBusyFlag module = 2 then { s with busy2 := v } else { s with busy1 := v }

/-- `_I2C_GetConfig(module)->timeout_ms`. -/
def cfgTimeout (cfg : I2CConfigs) (module : Nat) : Nat :=
  if _I2C_GetConfig module = 2 then cfg.timeout2 else cfg.timeout1

/-- `_I2C_CalculateBRG` (i2c.c lines 119-129).  All arithmetic is `uint32`:
`2 * desired_speed` reduces mod 2^32, and the `- 2` is the unsigned
subtraction `(q + 2^32 - 2) mod 2^32`, which wraps when the quotient is 0
or 1.  Then the two clamps in source order (`> 0xFFFF` first, `< 2`
second) and the final `uint16_t` cast.  (A zero divisor is division by
zero in C, i.e. undefined; theorems about this function assume the divisor
is nonzero.) -/
def _I2C_CalculateBRG (fcy desired_speed : Nat) : Nat :=
  let brg0 := (fcy / ((2 * desired_speed) % 4294967296) + 4294967294) % 4294967296
  let brg1 := if brg0 > 65535 then 65535 else brg0
  let brg2 := if brg1 < 2 then 2 else brg1
  brg2 % 65536

/-- Exit information of the polling `while` loop of `_I2C_WaitCondition`
(i2c.c line 138): either the pending bits read clear (carrying the counter
value at that moment, which the post-decrement did NOT touch thanks to
`&&` short-circuiting), or the counter's post-decrement evaluated 0 and
wrapped the `uint32` counter to 2^32-1, or an error bit was seen. -/
inductive LoopExit where
  | cleared (c t : Nat)
  | exhausted (t : Nat)
  | errOverrun (c t : Nat)
  | errCollision (c t : Nat)
deriving DecidableEq

/-- The polling loop of `_I2C_WaitCondition` (i2c.c lines 138-148):
`while ((*i2c_con & 0x1F) != 0 && timeout_counter--) { bit-9 check; bit-8 check }`.
Guard order is the source order: the pending-bits read first, then the
counter post-decrement, then inside the body the overflow-bit (bit 9) read
and the write-collision-bit (bit 8) read.  Each register read consumes one
`env` value; `c` is the current counter value (the recursion is on `c`,
which the loop decrements exactly when the body is entered). -/
def waitLoop (env : Nat → Nat) : Nat → Nat → LoopExit
  | t, 0 =>
      if env t &&& 31 = 0 then LoopExit.cleared 0 (t + 1)
      else LoopExit.exhausted (t + 1)
  | t, c + 1 =>
      if env t &&& 31 = 0 then LoopExit.cleared (c + 1) (t + 1)
      else if env (t + 1) &&& 512 ≠ 0 then LoopExit.errOverrun c (t + 2)
      else if env (t + 2) &&& 256 ≠ 0 then LoopExit.errCollision c (t + 3)
      else waitLoop env (t + 3) c

/-- `_I2C_WaitCondition` (i2c.c lines 134-156).  The counter starts at
`timeout_ms * 1000`, computed in the platform's 16-bit `unsigned int`
(XC16 integer promotions), hence `% 65536`.  After the loop the source
tests `timeout_counter == 0`: that test sees 0 only when the pending bits
cleared at the very read on which the counter was already 0 (loop-exit
`cleared 0`); when the counter itself expires (`exhausted`) it has wrapped
to 2^32-1 and the function returns `true`.  On an error exit the matching
status is stored through `_I2C_GetState` and `false` returned.  The ghost
`waitResults` log records the boolean result. -/
def _I2C_WaitCondition (env : Nat → Nat) (module timeout_ms : Nat) (s : Sys) :
    Bool × Sys :=
  let c0 := (timeout_ms * 1000) % 65536
  match waitLoop env s.t c0 with
  | LoopExit.cleared c t2 =>
      if c = 0 then
        (false, writeState { s with t := t2, waitResults := s.waitResults ++ [false] }
          module I2CState.timeout)
      else
        (true, { s with t := t2, waitResults := s.waitResults ++ [true] })
  | LoopExit.exhausted t2 =>
      (true, { s with t := t2, waitResults := s.waitResults ++ [true] })
  | LoopExit.errOverrun _ t2 =>
      (false, writeState { s with t := t2, waitResults := s.waitResults ++ [false] }
        module I2CState.overrun)
  | LoopExit.errCollision _ t2 =>
      (false, writeState { s with t := t2, waitResults := s.waitResults ++ [false] }
        module I2CState.busCollision)

/-- `I2C_Start` (i2c.c lines 275-294): fail immediately if the unit's busy
flag is set; otherwise set busy, set status to BUSY, set `SEN` (ghost
event `start`), wait; on wait failure clear busy and fail. -/
def I2C_Start (env : Nat → Nat) (cfg : I2CConfigs) (module : Nat) (s : Sys) :
    Bool × Sys :=
  if readBusy s module then (false, s)
  else
    let s1 := writeBusy s module true
    let s2 := writeState s1 module I2CState.busy
    let s3 := { s2 with events := s2.events ++ [Ev.start] }
    let w := _I2C_WaitCondition env module (cfgTimeout cfg module) s3
    if w.1 = false then (false, writeBusy w.2 module false)
    else (true, w.2)

/-- `I2C_Stop` (i2c.c lines 312-329): set `PEN` (ghost event `stop`), wait;
on failure return `false` leaving busy and status untouched; on success
clear busy and reset status to IDLE. -/
def I2C_Stop (env : Nat → Nat) (cfg : I2CConfigs) (module : Nat) (s : Sys) :
    Bool × Sys :=
  let s1 := { s with events := s.events ++ [Ev.stop] }
  let w := _I2C_WaitCondition env module (cfgTimeout cfg module) s1
  if w.1 = false then (false, w.2)
  else (true, writeState (writeBusy w.2 module false) module I2CState.idle)

/-- `I2C_WriteByte` (i2c.c lines 334-356): load `I2CxTRN` with the byte
(the `uint8_t` parameter conversion is `% 256`; ghost event `writeByte`),
start the transfer, wait; on wait failure return `false`.  Then one more
volatile read of bit 15 (the ACKSTAT test of the source): if set, record
`DATA_NACK` and fail; otherwise succeed. -/
def I2C_WriteByte (env : Nat → Nat) (cfg : I2CConfigs) (module data : Nat)
    (s : Sys) : Bool × Sys :=
  let s1 := { s with events := s.events ++ [Ev.writeByte (data % 256)] }
  let w := _I2C_WaitCondition env module (cfgTimeout cfg module) s1
  if w.1 = false then (false, w.2)
  else if env w.2.t &&& 32768 ≠ 0 then
    (false, writeState { w.2 with t := w.2.t + 1 } module I2CState.dataNack)
  else (true, { w.2 with t := w.2.t + 1 })

/-- `I2C_ReadByte` (i2c.c lines 361-380): program `ACKDT` from `ack` and
set `RCEN` (ghost event `readByte`), wait with the result DISCARDED, then
return the low byte of one volatile `I2CxRCV` read regardless of the wait
outcome. -/
def I2C_ReadByte (env : Nat → Nat) (cfg : I2CConfigs) (module : Nat)
    (ack : Bool) (s : Sys) : Nat × Sys :=
  let s1 := { s with events := s.events ++ [Ev.readByte ack] }
  let s2 := (_I2C_WaitCondition env module (cfgTimeout cfg module) s1).2
  (env s2.t % 256, { s2 with t := s2.t + 1 })

/-- The data loop of `I2C_WriteData` (i2c.c lines 398-403): write each byte
in order; on the first failing `I2C_WriteByte`, call `I2C_Stop` (its result
discarded) and return `false`. -/
def writeLoop (env : Nat → Nat) (cfg : I2CConfigs) (module : Nat) :
    List Nat → Sys → Bool × Sys
  | [], s => (true, s)
  | b :: bs, s =>
      let w := I2C_WriteByte env cfg module b s
      if w.1 = false then (false, (I2C_Stop env cfg module w.2).2)
      else writeLoop env cfg module bs w.2

/-- `I2C_WriteData` (i2c.c lines 385-407).  The caller's `(data, length)`
pointer-length pair is modelled as `Option (List Nat)`: `none` is a NULL
pointer, and the list length is `length`.  Guard: `length == 0 || data ==
NULL` returns `false` with no effect.  Then START, the address byte
`(address << 1) | 0x00`, the data loop, and the trailing STOP whose result
is returned. -/
def I2C_WriteData (env : Nat → Nat) (cfg : I2CConfigs) (module address : Nat)
    (data : Option (List Nat)) (s : Sys) : Bool × Sys :=
  match data with
  | none => (false, s)
  | some d =>
    if d.length = 0 then (false, s)
    else
      let st := I2C_Start env cfg module s
      if st.1 = false then (false, st.2)
      else
        let wb := I2C_WriteByte env cfg module ((address <<< 1) ||| 0) st.2
        if wb.1 = false then (false, (I2C_Stop env cfg module wb.2).2)
        else
          let wl := writeLoop env cfg module d wb.2
          if wl.1 = false then (false, wl.2)
          else I2C_Stop env cfg module wl.2

/-- The read loop of `I2C_ReadData` (i2c.c lines 425-428):
`for (i = 0; i < length; i++) { ack = (i < length - 1); buffer[i] = I2C_ReadByte(...); }`.
`r` is the number of remaining iterations (initially `length`), `i` the
current index; the received bytes are returned as the buffer content. -/
def readLoop (env : Nat → Nat) (cfg : I2CConfigs) (module length : Nat) :
    Nat → Nat → Sys → List Nat × Sys
  | 0, _, s => ([], s)
  | r + 1, i, s =>
      let ack := decide (i < length - 1)
      let rb := I2C_ReadByte env cfg module ack s
      let rest := readLoop env cfg module length r (i + 1) rb.2
      (rb.1 :: rest.1, rest.2)

/-- `I2C_ReadData` (i2c.c lines 412-432).  `bufferNull` models a NULL
`buffer` pointer.  Guard: `length == 0 || buffer == NULL` returns `false`
with no effect.  Then START, the address byte `(address << 1) | 0x01`, the
read loop (whose per-byte wait failures are invisible here because
`I2C_ReadByte` returns no status), and the trailing STOP whose result is
returned together with the received bytes. -/
def I2C_ReadData (env : Nat → Nat) (cfg : I2CConfigs) (module address : Nat)
    (bufferNull : Bool) (length : Nat) (s : Sys) : Bool × List Nat × Sys :=
  if length = 0 ∨ bufferNull then (false, [], s)
  else
    let st := I2C_Start env cfg module s
    if st.1 = false then (false, [], st.2)
    else
      let wb := I2C_WriteByte env cfg module ((address <<< 1) ||| 1) st.2
      if wb.1 = false then (false, [], (I2C_Stop env cfg module wb.2).2)
      else
        let rl := readLoop env cfg module length length 0 wb.2
        let sp := I2C_Stop env cfg module rl.2
        (sp.1, rl.1, sp.2)

/-- `I2C_CheckDevice` (i2c.c lines 480-491): START, address byte with the
write bit, STOP (result discarded); return the address byte's result. -/
def I2C_CheckDevice (env : Nat → Nat) (cfg : I2CConfigs) (module address : Nat)
    (s : Sys) : Bool × Sys :=
  let st := I2C_Start env cfg module s
  if st.1 = false then (false, st.2)
  else
    let wb := I2C_WriteByte env cfg module ((address <<< 1) ||| 0) st.2
    (wb.1, (I2C_Stop env cfg module wb.2).2)

/-- `I2C_IsBusy` (i2c.c lines 600-602): returns the unit's busy flag. -/
def I2C_IsBusy (module : Nat) (s : Sys) : Bool :=
  readBusy s module

/-- The process-start state: both units idle and not busy (i2c.c lines
17-20), read cursor at 0, empty ghost logs. -/
def s0 : Sys :=
  { state1 := I2CState.idle, state2 := I2CState.idle, busy1 := false,
    busy2 := false, t := 0, events := [], waitResults := [] }

/-- A configuration pair with a 1 ms timeout on both units. -/
def cfg0 : I2CConfigs := { timeout1 := 1, timeout2 := 1 }

/-- All-clear environment: every volatile read returns 0 (pending bits
clear, no error flags, ACK received). -/
def env0 : Nat → Nat := fun _ => 0

/-- Stuck-bus environment: the pending bit `SEN` reads 1 forever and no
error flag is ever set, so a wait can only end by counter expiry. -/
def envStuck : Nat → Nat := fun _ => 1

/-- Environment for the C2 counterexample: at the very first volatile read
the pending bits are clear while the write-collision flag (bit 8) is set;
afterwards everything reads 0. -/
def envC2 : Nat → Nat := fun t => if t = 0 then 256 else 0

/-- Environment in which the first wait iteration sees the pending bit set
(read 0), no overflow (read 1), and the write-collision flag set (read 2). -/
def envCol : Nat → Nat := fun t => if t = 0 then 1 else if t = 2 then 256 else 0

/-- Environment for the C6 counterexample: the START wait, address-byte
wait and ACKSTAT read all see 0 (immediate success); the single data
byte's wait sees the pending bit set (read 3) and then the collision flag
(read 5), so that wait fails; every later read is 0 so the trailing STOP
succeeds. -/
def envC6 : Nat → Nat := fun t => if t = 3 then 1 else if t = 5 then 256 else 0

/-- The initial state with unit 1 already marked busy. -/
def sBusy : Sys := { s0 with busy1 := true }

/-- Modelled from the spec: the Timing Calculator contract of spec §4.1 and
§8 — `divider = cycles/(2*speed) - 2`, clamped to `[2, 65535]` at the
nearest bound, computed in exact integer arithmetic.  This is the spec-side
definition to compare `_I2C_CalculateBRG` against; it is NOT translated
from the source. -/
def specTimingDivider (fcy speed : Nat) : Int :=
  let v : Int := (fcy : Int) / (2 * (speed : Int)) - 2
  if v < 2 then 2 else if v > 65535 then 65535 else v

/-- Neither unit's status variable holds the address-NACK code. -/
def noAddrNack (s : Sys) : Prop :=
  s.state1 ≠ I2CState.addrNack ∧ s.state2 ≠ I2CState.addrNack

instance (s : Sys) : Decidable (noAddrNack s) := by
  unfold noAddrNack
  infer_instance

/-- Reading a unit's status after writing that same unit's status yields
the written value. -/
@[simp] theorem readState_writeState (s : Sys) (m : Nat) (v : I2CState) :
    readState (writeState s m v) m = v := by
  unfold readState writeState
  split <;> simp

/-- Writing a busy flag does not change any status variable. -/
@[simp] theorem readState_writeBusy (s : Sys) (m m2 : Nat) (v : Bool) :
    readState (writeBusy s m v) m2 = readState s m2 := by
  unfold readState writeBusy
  split <;> split <;> simp

/-- Reading a unit's busy flag after writing that same unit's busy flag
yields the written value. -/
@[simp] theorem readBusy_writeBusy (s : Sys) (m : Nat) (v : Bool) :
    readBusy (writeBusy s m v) m = v := by
  unfold readBusy writeBusy
  split <;> simp

/-- Writing a status variable does not change any busy flag. -/
@[simp] theorem readBusy_writeState (s : Sys) (m m2 : Nat) (v : I2CState) :
    readBusy (writeState s m v) m2 = readBusy s m2 := by
  unfold readBusy writeState
  split <;> split <;> simp

/-- `writeState` only touches the status fields. -/
@[simp] theorem writeState_busy1 (s : Sys) (m : Nat) (v : I2CState) :
    (writeState s m v).busy1 = s.busy1 := by
  unfold writeState
  split <;> rfl

/-- `writeState` only touches the status fields. -/
@[simp] theorem writeState_busy2 (s : Sys) (m : Nat) (v : I2CState) :
    (writeState s m v).busy2 = s.busy2 := by
  unfold writeState
  split <;> rfl

/-- `writeState` does not move the read cursor. -/
@[simp] theorem writeState_t (s : Sys) (m : Nat) (v : I2CState) :
    (writeState s m v).t = s.t := by
  unfold writeState
  split <;> rfl

/-- `writeState` does not log events. -/
@[simp] theorem writeState_events (s : Sys) (m : Nat) (v : I2CState) :
    (writeState s m v).events = s.events := by
  unfold writeState
  split <;> rfl

/-- `writeState` does not log wait results. -/
@[simp] theorem writeState_waitResults (s : Sys) (m : Nat) (v : I2CState) :
    (writeState s m v).waitResults = s.waitResults := by
  unfold writeState
  split <;> rfl

/-- `writeBusy` only touches the busy fields. -/
@[simp] theorem writeBusy_state1 (s : Sys) (m : Nat) (v : Bool) :
    (writeBusy s m v).state1 = s.state1 := by
  unfold writeBusy
  split <;> rfl

/-- `writeBusy` only touches the busy fields. -/
@[simp] theorem writeBusy_state2 (s : Sys) (m : Nat) (v : Bool) :
    (writeBusy s m v).state2 = s.state2 := by
  unfold writeBusy
  split <;> rfl

/-- `writeBusy` does not move the read cursor. -/
@[simp] theorem writeBusy_t (s : Sys) (m : Nat) (v : Bool) :
    (writeBusy s m v).t = s.t := by
  unfold writeBusy
  split <;> rfl

/-- `writeBusy` does not log events. -/
@[simp] theorem writeBusy_events (s : Sys) (m : Nat) (v : Bool) :
    (writeBusy s m v).events = s.events := by
  unfold writeBusy
  split <;> rfl

/-- `writeBusy` does not log wait results. -/
@[simp] theorem writeBusy_waitResults (s : Sys) (m : Nat) (v : Bool) :
    (writeBusy s m v).waitResults = s.waitResults := by
  unfold writeBusy
  split <;> rfl

/-- The wait primitive never changes a busy flag. -/
@[simp] theorem readBusy_wait (env : Nat → Nat) (m tmo m2 : Nat) (s : Sys) :
    readBusy (_I2C_WaitCondition env m tmo s).2 m2 = readBusy s m2 := by
  simp only [_I2C_WaitCondition]
  split <;> (try split) <;> simp [readBusy]

/-- The wait primitive appends nothing to the event log. -/
@[simp] theorem wait_events (env : Nat → Nat) (m tmo : Nat) (s : Sys) :
    ((_I2C_WaitCondition env m tmo s).2).events = s.events := by
  simp only [_I2C_WaitCondition]
  split <;> (try split) <;> simp

/-- The wait primitive appends exactly its own boolean result to the ghost
`waitResults` log. -/
theorem wait_waitResults (env : Nat → Nat) (m tmo : Nat) (s : Sys) :
    ((_I2C_WaitCondition env m tmo s).2).waitResults =
      s.waitResults ++ [(_I2C_WaitCondition env m tmo s).1] := by
  simp only [_I2C_WaitCondition]
  split <;> (try split) <;> simp

/-- Claim C4: a `Start` on a unit whose busy flag is already set returns
failure immediately and leaves the whole system state unchanged — in
particular no wait-primitive call is made (the ghost `waitResults` log is
unchanged, i.e. zero poll iterations are consumed) and the busy flag is
untouched. -/
theorem start_busy_fails_immediately (env : Nat → Nat) (cfg : I2CConfigs)
    (module : Nat) (s : Sys) (hb : readBusy s module = true) :
    I2C_Start env cfg module s = (false, s) := by
  simp [I2C_Start, hb]

/-- Witness for C4 at a concrete input: unit 1 of `sBusy` is busy and
`Start` returns `(false, sBusy)`. -/
theorem start_busy_fails_immediately_witness :
    I2C_Start env0 cfg0 1 sBusy = (false, sBusy) :=
  start_busy_fails_immediately env0 cfg0 1 sBusy (by decide)

/-- Claim C10: `WriteData` with a NULL data pointer or length 0, and
`ReadData` with length 0 or a NULL buffer pointer, return failure with the
state fully unchanged: no bus condition is generated (no ghost event), and
busy flag and status code keep their values. -/
theorem null_or_empty_args_no_effect (env : Nat → Nat) (cfg : I2CConfigs)
    (module address length : Nat) (bufferNull : Bool) (s : Sys) :
    I2C_WriteData env cfg module address none s = (false, s) ∧
    I2C_WriteData env cfg module address (some []) s = (false, s) ∧
    I2C_ReadData env cfg module address bufferNull 0 s = (false, [], s) ∧
    I2C_ReadData env cfg module address true length s = (false, [], s) := by
  refine ⟨rfl, by simp [I2C_WriteData], ?_, ?_⟩ <;> simp [I2C_ReadData]

/-- Counterexample to claim C8: the invalid selector value 0 resolves to
exactly the same register base, state variable, busy flag and
configuration as the valid selector 1 — the `default:` branches DO
silently alias unit 1. -/
theorem invalid_selector_aliases_unit1 :
    _I2C_GetModuleBase 0 = _I2C_GetModuleBase 1 ∧
    _I2C_GetState 0 = _I2C_GetState 1 ∧
    _I2C_GetBusyFlag 0 = _I2C_GetBusyFlag 1 ∧
    _I2C_GetConfig 0 = _I2C_GetConfig 1 := by decide

/-- Claim C8 (amended): for the two valid selector values every per-unit
accessor resolves unambiguously (selector 1 to unit 1, selector 2 to unit
2, which are distinct); every other selector value falls into the switch
`default:` and resolves to unit 1 in all four accessors. -/
theorem selector_resolution (m : Nat) (h1 : m ≠ 1) (h2 : m ≠ 2) :
    (_I2C_GetModuleBase 1 = 1 ∧ _I2C_GetState 1 = 1 ∧
     _I2C_GetBusyFlag 1 = 1 ∧ _I2C_GetConfig 1 = 1) ∧
    (_I2C_GetModuleBase 2 = 2 ∧ _I2C_GetState 2 = 2 ∧
     _I2C_GetBusyFlag 2 = 2 ∧ _I2C_GetConfig 2 = 2) ∧
    (_I2C_GetModuleBase m = 1 ∧ _I2C_GetState m = 1 ∧
     _I2C_GetBusyFlag m = 1 ∧ _I2C_GetConfig m = 1) := by
  refine ⟨by decide, by decide, ?_⟩
  simp [_I2C_GetModuleBase, _I2C_GetState, _I2C_GetBusyFlag, _I2C_GetConfig, h1, h2]

/-- Witness for the amended C8 at the concrete invalid selector 0. -/
theorem selector_resolution_witness :
    _I2C_GetModuleBase 0 = 1 ∧ _I2C_GetState 0 = 1 ∧
    _I2C_GetBusyFlag 0 = 1 ∧ _I2C_GetConfig 0 = 1 :=
  (selector_resolution 0 (by decide) (by decide)).2.2

set_option maxRecDepth 40000 in
/-- Claim C1 (code bug): with the bus stuck (pending bit always set, no
error flags) and a configured timeout of 1 ms, the wait primitive's
counter expires — yet `_I2C_WaitCondition` returns SUCCESS and the unit's
status stays idle.  The `while (pending && timeout_counter--)` guard
post-decrements the `uint32` counter when it reads 0, wrapping it to
2^32-1, so the subsequent `if (timeout_counter == 0)` timeout branch is
not taken. -/
theorem wait_timeout_expiry_returns_success :
    (_I2C_WaitCondition envStuck 1 1 s0).1 = true ∧
    (_I2C_WaitCondition envStuck 1 1 s0).2.state1 = I2CState.idle := by decide

/-- Counterexample to claim C3: at `fcy = 40000000`, `speed = 40000000`
the exact divider is `40000000/80000000 - 2 = -2`, which is below the
range, so the spec-side Timing Calculator clamps to the lower bound 2 —
but the source computes the `- 2` in unsigned 32-bit arithmetic, wraps to
4294967294, and the `> 0xFFFF` clamp fires first, producing 65535. -/
theorem calculateBRG_underflow_clamps_to_max :
    _I2C_CalculateBRG 40000000 40000000 = 65535 ∧
    specTimingDivider 40000000 40000000 = 2 := by decide

/-- Claim C3 (amended): writing `q` for the unsigned quotient
`cycles/(2*speed)`, the Timing Calculator returns `q - 2` exactly whenever
`q - 2` lies in `[2, 65535]`; it clamps to 65535 when `q - 2 > 65535`;
it clamps to 2 when `q` is 2 or 3 (result 0 or 1, below range); but when
`q < 2` the unsigned subtraction wraps above 2^16-1 and the output is
65535, NOT the nearest bound 2. -/
theorem calculateBRG_clamp_characterization (fcy s q : Nat)
    (hf : fcy < 4294967296) (h0 : 0 < s) (hs : 2 * s < 4294967296)
    (hq : q = fcy / (2 * s)) :
    _I2C_CalculateBRG fcy s =
      if q < 2 then 65535
      else if q - 2 < 2 then 2
      else if q - 2 > 65535 then 65535
      else q - 2 := by
  subst hq
  simp only [_I2C_CalculateBRG]
  rw [Nat.mod_eq_of_lt hs]
  have hqlt : fcy / (2 * s) < 4294967296 :=
    lt_of_le_of_lt (Nat.div_le_self _ _) hf
  generalize fcy / (2 * s) = q at hqlt ⊢
  split_ifs <;> omega

/-- Witness for the amended C3 at a concrete in-range input:
`fcy = 40 MHz`, `speed = 100 kHz` gives quotient 200 and exact divider
198. -/
theorem calculateBRG_clamp_characterization_witness :
    _I2C_CalculateBRG 40000000 100000 = 198 := by
  rw [calculateBRG_clamp_characterization 40000000 100000 200 (by decide)
    (by decide) (by decide) (by decide)]
  decide

/-- Counterexample to claim C2: start from the idle state with a 1 ms
timeout and an environment whose very first wait-loop read shows the
pending bits CLEAR while the write-collision flag (bit 8) is SET — i.e.
the collision flag is set during `Start`'s wait loop in the same iteration
in which the pending bit clears.  `I2C_Start` returns SUCCESS and the
status remains BUSY (the value `Start` itself stored), never
bus-collision: the while-guard checks the pending bits before the error
bits, so pending-clear takes precedence over collision. -/
theorem start_collision_with_pending_clear_succeeds :
    (I2C_Start envC2 cfg0 1 s0).1 = true ∧
    (I2C_Start envC2 cfg0 1 s0).2.state1 = I2CState.busy := by decide

/-- Claim C2 (amended): the wait loop checks the pending bits FIRST; the
collision and overrun flags are examined only on iterations whose
pending-bits read is nonzero and whose counter has not expired.  So during
`Start`'s wait: if the first read shows pending still set, the overflow
bit clear and the collision bit set, status becomes bus-collision and
`Start` fails; but if the pending bits read clear in that iteration (with
a nonzero counter), `Start` returns success regardless of the error flags
— pending-clear, not collision, takes precedence. -/
theorem start_collision_precedence_amended (env : Nat → Nat)
    (cfg : I2CConfigs) (m : Nat) (s : Sys) (hb : readBusy s m = false)
    (hc : (cfgTimeout cfg m * 1000) % 65536 ≠ 0) :
    ((env s.t &&& 31 ≠ 0 ∧ env (s.t + 1) &&& 512 = 0 ∧
        env (s.t + 2) &&& 256 ≠ 0) →
      (I2C_Start env cfg m s).1 = false ∧
      readState (I2C_Start env cfg m s).2 m = I2CState.busCollision) ∧
    (env s.t &&& 31 = 0 → (I2C_Start env cfg m s).1 = true) := by
  obtain ⟨c, hc0⟩ := Nat.exists_eq_succ_of_ne_zero hc
  constructor
  · rintro ⟨hp, hov, hcol⟩
    constructor <;>
      simp [I2C_Start, _I2C_WaitCondition, hb, hc0, waitLoop, hp, hov, hcol]
  · intro hp
    simp [I2C_Start, _I2C_WaitCondition, hb, hc0, waitLoop, hp]

/-- Witness for the amended C2 at a concrete input: from `s0` with
`envCol` (pending set, overflow clear, collision set on the first
iteration's three reads), `Start` on unit 1 fails with status
bus-collision. -/
theorem start_collision_precedence_amended_witness :
    (I2C_Start envCol cfg0 1 s0).1 = false ∧
    readState (I2C_Start envCol cfg0 1 s0).2 1 = I2CState.busCollision :=
  (start_collision_precedence_amended envCol cfg0 1 s0 (by decide)
    (by decide)).1 ⟨by decide, by decide, by decide⟩

/-- Claim C5: for a unit currently marked busy (as it is during a
transaction whose `Start` succeeded, e.g. at the trailing `Stop` of a
multi-byte `WriteData`), `I2C_Stop` returns exactly its wait's result;
on success it clears the busy flag (so `I2C_IsBusy` reports not busy)
and resets the status to idle; on failure it returns failure and leaves
the busy flag set (so `I2C_IsBusy` still reports busy). -/
theorem stop_busy_clear_iff_wait_success (env : Nat → Nat)
    (cfg : I2CConfigs) (m : Nat) (s : Sys) (hb : readBusy s m = true) :
    ((I2C_Stop env cfg m s).1 =
      (_I2C_WaitCondition env m (cfgTimeout cfg m)
        { s with events := s.events ++ [Ev.stop] }).1) ∧
    ((I2C_Stop env cfg m s).1 = true →
      I2C_IsBusy m (I2C_Stop env cfg m s).2 = false ∧
      readState (I2C_Stop env cfg m s).2 m = I2CState.idle) ∧
    ((I2C_Stop env cfg m s).1 = false →
      I2C_IsBusy m (I2C_Stop env cfg m s).2 = true) := by
  simp only [I2C_Stop, I2C_IsBusy]
  rcases hw : _I2C_WaitCondition env m (cfgTimeout cfg m)
      { s with events := s.events ++ [Ev.stop] } with ⟨ok, s2⟩
  have hrec : readBusy { s with events := s.events ++ [Ev.stop] } m =
      readBusy s m := by
    simp [readBusy]
  have hbusy : readBusy s2 m = true := by
    have h2 := readBusy_wait env m (cfgTimeout cfg m) m
      { s with events := s.events ++ [Ev.stop] }
    rw [hw] at h2
    rw [h2, hrec, hb]
  cases ok <;> simp [hw, hbusy]

/-- Witness for C5 at a concrete input: with the all-clear environment and
unit 1 busy, `Stop` succeeds, `IsBusy` then reports not busy and the
status is idle. -/
theorem stop_busy_clear_iff_wait_success_witness :
    I2C_IsBusy 1 (I2C_Stop env0 cfg0 1 sBusy).2 = false ∧
    readState (I2C_Stop env0 cfg0 1 sBusy).2 1 = I2CState.idle :=
  (stop_busy_clear_iff_wait_success env0 cfg0 1 sBusy (by decide)).2.1
    (by decide)

/-- `I2C_Stop` appends exactly one `stop` event, whether its wait succeeds
or fails. -/
@[simp] theorem stop_events (env : Nat → Nat) (cfg : I2CConfigs) (m : Nat)
    (s : Sys) :
    (I2C_Stop env cfg m s).2.events = s.events ++ [Ev.stop] := by
  simp only [I2C_Stop]
  split <;> simp

/-- `I2C_WriteByte` appends exactly one `writeByte` event carrying the
byte after `uint8_t` conversion. -/
@[simp] theorem writeByte_events (env : Nat → Nat) (cfg : I2CConfigs)
    (m b : Nat) (s : Sys) :
    (I2C_WriteByte env cfg m b s).2.events =
      s.events ++ [Ev.writeByte (b % 256)] := by
  simp only [I2C_WriteByte]
  split <;> (try split) <;> simp

/-- `I2C_ReadByte` appends exactly one `readByte` event carrying the
acknowledge choice. -/
@[simp] theorem readByte_events (env : Nat → Nat) (cfg : I2CConfigs)
    (m : Nat) (a : Bool) (s : Sys) :
    ((I2C_ReadByte env cfg m a s).2).events = s.events ++ [Ev.readByte a] := by
  simp [I2C_ReadByte]

/-- A `Start` on a non-busy unit appends exactly one `start` event, whether
its wait succeeds or fails. -/
theorem start_events_not_busy (env : Nat → Nat) (cfg : I2CConfigs) (m : Nat)
    (s : Sys) (hb : readBusy s m = false) :
    (I2C_Start env cfg m s).2.events = s.events ++ [Ev.start] := by
  simp only [I2C_Start, hb, Bool.false_eq_true, if_false]
  split <;> simp

/-- `writeLoop` never erases events. -/
theorem writeLoop_events_mono (env : Nat → Nat) (cfg : I2CConfigs) (m : Nat)
    (d : List Nat) (s : Sys) (x : Ev) (h : x ∈ s.events) :
    x ∈ (writeLoop env cfg m d s).2.events := by
  induction d generalizing s with
  | nil => simpa [writeLoop]
  | cons b bs ih =>
      simp only [writeLoop]
      split
      · simp [h]
      · exact ih _ (by simp [h])

/-- When `writeLoop` fails it has already issued the `Stop` of the failure
path: a `stop` event is in its log. -/
theorem writeLoop_false_stop (env : Nat → Nat) (cfg : I2CConfigs) (m : Nat)
    (d : List Nat) (s : Sys) (h : (writeLoop env cfg m d s).1 = false) :
    Ev.stop ∈ (writeLoop env cfg m d s).2.events := by
  induction d generalizing s with
  | nil => simp [writeLoop] at h
  | cons b bs ih =>
      simp only [writeLoop] at h ⊢
      by_cases hw : (I2C_WriteByte env cfg m b s).1 = false
      · rw [if_pos hw]
        simp
      · rw [if_neg hw] at h ⊢
        exact ih _ h

/-- The events appended by `readLoop`: one `readByte` per iteration, whose
acknowledge flag is the source's `i < length - 1` test at the running
index. -/
theorem readLoop_events (env : Nat → Nat) (cfg : I2CConfigs) (m len : Nat) :
    ∀ (r i : Nat) (s : Sys),
      (readLoop env cfg m len r i s).2.events =
        s.events ++
          (List.range r).map (fun k => Ev.readByte (decide (i + k < len - 1))) := by
  intro r
  induction r with
  | zero => intro i s; simp [readLoop]
  | succ r ih =>
      intro i s
      simp only [readLoop]
      rw [ih]
      rw [List.range_succ_eq_map]
      simp only [List.map_cons, List.map_map]
      rw [readByte_events]
      simp only [List.append_assoc, List.singleton_append, Nat.add_zero]
      congr 2
      apply List.map_congr_left
      intro k hk
      simp only [Function.comp]
      have h2 : i + 1 + k = i + (k + 1) := by omega
      rw [h2]

/-- The acknowledge flags produced by an (m+1)-iteration read loop at
start index 0: acknowledge (true) for the first m bytes, and
negative-acknowledge (false) exactly once, on the final byte. -/
theorem acks_shape (m : Nat) :
    (List.range (m + 1)).map (fun k => Ev.readByte (decide (k < m))) =
      (List.replicate m true ++ [false]).map Ev.readByte := by
  rw [List.range_succ, List.map_append, List.map_append, List.map_replicate]
  congr 1
  · have h : ∀ b ∈ (List.range m).map fun k => Ev.readByte (decide (k < m)),
        b = Ev.readByte true := by
      intro b hb
      rw [List.mem_map] at hb
      obtain ⟨k, hk, rfl⟩ := hb
      rw [List.mem_range] at hk
      simp [hk]
    have h2 := List.eq_replicate_of_mem h
    simpa using h2
  · simp

/-- Claim C7: for every unit, address and byte count N ≥ 1, whenever the
`Start` and the address byte of `ReadData` succeed, the operation emits
exactly: START, the address byte `(address << 1) | 1` (read bit set), N
`ReadByte` operations whose acknowledge flags are acknowledge (true) on
each of the first N-1 bytes and negative-acknowledge (false) exactly once
— on the final byte — and then STOP. -/
theorem readData_event_sequence (env : Nat → Nat) (cfg : I2CConfigs)
    (m a n : Nat) (s : Sys) (hn : 1 ≤ n)
    (hstart : (I2C_Start env cfg m s).1 = true)
    (haddr : (I2C_WriteByte env cfg m ((a <<< 1) ||| 1)
        (I2C_Start env cfg m s).2).1 = true) :
    (I2C_ReadData env cfg m a false n s).2.2.events =
      s.events ++ [Ev.start, Ev.writeByte (((a <<< 1) ||| 1) % 256)] ++
        (List.replicate (n - 1) true ++ [false]).map Ev.readByte ++
        [Ev.stop] := by
  have hb : readBusy s m = false := by
    by_contra hbb
    rw [Bool.not_eq_false] at hbb
    simp [I2C_Start, hbb] at hstart
  obtain ⟨n2, rfl⟩ : ∃ n2, n = n2 + 1 := ⟨n - 1, by omega⟩
  simp only [I2C_ReadData]
  rw [if_neg (by simp)]
  rw [if_neg (by simp [hstart])]
  rw [if_neg (by simp [haddr])]
  dsimp only
  rw [stop_events, readLoop_events, writeByte_events,
    start_events_not_busy env cfg m s hb]
  simp only [Nat.zero_add, Nat.add_sub_cancel]
  rw [acks_shape n2]
  simp [List.append_assoc]

/-- Witness for C7 at a concrete input: a 2-byte read from address 0x50 on
unit 1 with the all-clear environment emits START, address byte 0xA1,
a `ReadByte` with acknowledge, a `ReadByte` with negative-acknowledge,
and STOP. -/
theorem readData_event_sequence_witness :
    (I2C_ReadData env0 cfg0 1 80 false 2 s0).2.2.events =
      s0.events ++ [Ev.start, Ev.writeByte (((80 <<< 1) ||| 1) % 256)] ++
        (List.replicate (2 - 1) true ++ [false]).map Ev.readByte ++
        [Ev.stop] :=
  readData_event_sequence env0 cfg0 1 80 2 s0 (by decide) (by decide)
    (by decide)

/-- Counterexample to claim C6: a 1-byte `ReadData` under `envC6`, where
the START and the address byte succeed, the single data byte's wait FAILS
(its wait result — the third entry of the ghost log — is `false`: the
collision flag was seen while the byte was pending), and the trailing
STOP succeeds.  `ReadData` returns SUCCESS, not failure: `I2C_ReadByte`
discards the wait result, so a data-byte failure cannot make `ReadData`
fail. -/
theorem readData_data_byte_failure_returns_success :
    (I2C_ReadData envC6 cfg0 1 80 false 1 s0).1 = true ∧
    (I2C_ReadData envC6 cfg0 1 80 false 1 s0).2.2.waitResults =
      [true, true, false, true] := by decide

/-- Claim C6 (amended): with valid arguments and a successful `Start`:
(1) `WriteData` always has a `stop` event in its final log — every
failure path after `Start` (address byte or data byte) issues a `Stop`
before returning, as does the success path; (2) so does `ReadData`;
(3) `WriteData` returns success exactly when the address byte, every data
byte and the trailing `Stop` all succeed — so any byte-level failure makes
it return failure; (4) `ReadData` returns failure when the address byte
fails; but (5) once the address byte succeeds, `ReadData` returns the
trailing `Stop`'s result — data-byte wait failures are invisible to it
(`I2C_ReadByte` reports no status), so it does NOT necessarily return
failure when a data byte fails. -/
theorem transaction_stop_always_issued (env : Nat → Nat) (cfg : I2CConfigs)
    (m a n : Nat) (d : List Nat) (s : Sys) (hd : d ≠ []) (hn : n ≠ 0)
    (hstart : (I2C_Start env cfg m s).1 = true) :
    Ev.stop ∈ (I2C_WriteData env cfg m a (some d) s).2.events ∧
    Ev.stop ∈ (I2C_ReadData env cfg m a false n s).2.2.events ∧
    ((I2C_WriteData env cfg m a (some d) s).1 = true ↔
      ((I2C_WriteByte env cfg m ((a <<< 1) ||| 0)
          (I2C_Start env cfg m s).2).1 = true ∧
       (writeLoop env cfg m d (I2C_WriteByte env cfg m ((a <<< 1) ||| 0)
          (I2C_Start env cfg m s).2).2).1 = true ∧
       (I2C_Stop env cfg m (writeLoop env cfg m d
          (I2C_WriteByte env cfg m ((a <<< 1) ||| 0)
            (I2C_Start env cfg m s).2).2).2).1 = true)) ∧
    ((I2C_WriteByte env cfg m ((a <<< 1) ||| 1)
        (I2C_Start env cfg m s).2).1 = false →
      (I2C_ReadData env cfg m a false n s).1 = false) ∧
    ((I2C_WriteByte env cfg m ((a <<< 1) ||| 1)
        (I2C_Start env cfg m s).2).1 = true →
      (I2C_ReadData env cfg m a false n s).1 =
        (I2C_Stop env cfg m (readLoop env cfg m n n 0
          (I2C_WriteByte env cfg m ((a <<< 1) ||| 1)
            (I2C_Start env cfg m s).2).2).2).1) := by
  refine ⟨?_, ?_, ?_, ?_, ?_⟩
  · -- WriteData always logs a stop after a successful Start
    simp only [I2C_WriteData]
    rw [if_neg (by simp [List.length_eq_zero, hd])]
    rw [if_neg (by simp [hstart])]
    try dsimp only
    by_cases hwb : (I2C_WriteByte env cfg m ((a <<< 1) ||| 0)
        (I2C_Start env cfg m s).2).1 = false
    · rw [if_pos hwb]
      simp
    · rw [if_neg hwb]
      by_cases hwl : (writeLoop env cfg m d (I2C_WriteByte env cfg m
          ((a <<< 1) ||| 0) (I2C_Start env cfg m s).2).2).1 = false
      · rw [if_pos hwl]
        exact writeLoop_false_stop env cfg m d _ hwl
      · rw [if_neg hwl]
        simp
  · -- ReadData always logs a stop after a successful Start
    simp only [I2C_ReadData]
    rw [if_neg (by simp [hn])]
    rw [if_neg (by simp [hstart])]
    try dsimp only
    by_cases hwb : (I2C_WriteByte env cfg m ((a <<< 1) ||| 1)
        (I2C_Start env cfg m s).2).1 = false
    · rw [if_pos hwb]
      simp
    · rw [if_neg hwb]
      simp
  · -- WriteData success-characterization
    simp only [I2C_WriteData]
    rw [if_neg (by simp [List.length_eq_zero, hd])]
    rw [if_neg (by simp [hstart])]
    try dsimp only
    by_cases hwb : (I2C_WriteByte env cfg m ((a <<< 1) ||| 0)
        (I2C_Start env cfg m s).2).1 = false
    · rw [if_pos hwb]
      simp only [Nat.or_zero] at hwb
      simp [hwb]
    · rw [if_neg hwb]
      rw [Bool.not_eq_false] at hwb
      by_cases hwl : (writeLoop env cfg m d (I2C_WriteByte env cfg m
          ((a <<< 1) ||| 0) (I2C_Start env cfg m s).2).2).1 = false
      · rw [if_pos hwl]
        simp only [Nat.or_zero] at hwb hwl
        simp [hwb, hwl]
      · rw [if_neg hwl]
        rw [Bool.not_eq_false] at hwl
        simp only [Nat.or_zero] at hwb hwl
        simp [hwb, hwl]
  · -- ReadData fails when the address byte fails
    intro hwb
    simp only [I2C_ReadData]
    rw [if_neg (by simp [hn])]
    rw [if_neg (by simp [hstart])]
    try dsimp only
    rw [if_pos hwb]
  · -- ReadData returns the trailing Stop result once the address byte
    -- succeeds, regardless of the data bytes
    intro hwb
    simp only [I2C_ReadData]
    rw [if_neg (by simp [hn])]
    rw [if_neg (by simp [hstart])]
    try dsimp only
    rw [if_neg (by simp [hwb])]

/-- Witness for the amended C6 at a concrete input: a 1-byte `WriteData`
to address 0x50 on unit 1 with the all-clear environment has a `stop`
event in its final log. -/
theorem transaction_stop_always_issued_witness :
    Ev.stop ∈ (I2C_WriteData env0 cfg0 1 80 (some [5]) s0).2.events :=
  (transaction_stop_always_issued env0 cfg0 1 80 1 [5] s0 (by decide)
    (by decide) (by decide)).1

/-- Writing any status other than addr-NACK preserves the invariant that
no unit's status is addr-NACK. -/
theorem noAddrNack_writeState (s : Sys) (m : Nat) (v : I2CState)
    (hv : v ≠ I2CState.addrNack) (h : noAddrNack s) :
    noAddrNack (writeState s m v) := by
  unfold writeState
  split
  · exact ⟨h.1, hv⟩
  · exact ⟨hv, h.2⟩

/-- Busy-flag writes preserve the addr-NACK-free invariant. -/
theorem noAddrNack_writeBusy (s : Sys) (m : Nat) (v : Bool)
    (h : noAddrNack s) : noAddrNack (writeBusy s m v) := by
  unfold writeBusy
  split <;> exact ⟨h.1, h.2⟩

/-- The wait primitive only ever stores timeout, overrun or bus-collision:
it preserves the addr-NACK-free invariant. -/
theorem noAddrNack_wait (env : Nat → Nat) (m tmo : Nat) (s : Sys)
    (h : noAddrNack s) : noAddrNack (_I2C_WaitCondition env m tmo s).2 := by
  simp only [_I2C_WaitCondition]
  split
  · split
    · exact noAddrNack_writeState _ _ _ (by decide) ⟨h.1, h.2⟩
    · exact ⟨h.1, h.2⟩
  · exact ⟨h.1, h.2⟩
  · exact noAddrNack_writeState _ _ _ (by decide) ⟨h.1, h.2⟩
  · exact noAddrNack_writeState _ _ _ (by decide) ⟨h.1, h.2⟩

/-- `I2C_Start` stores only BUSY; it preserves the invariant. -/
theorem noAddrNack_start (env : Nat → Nat) (cfg : I2CConfigs) (m : Nat)
    (s : Sys) (h : noAddrNack s) : noAddrNack (I2C_Start env cfg m s).2 := by
  simp only [I2C_Start]
  split
  · exact h
  · split
    · exact noAddrNack_writeBusy _ _ _ (noAddrNack_wait _ _ _ _
        (noAddrNack_writeState _ _ _ (by decide) (noAddrNack_writeBusy _ _ _ h)))
    · exact noAddrNack_wait _ _ _ _
        (noAddrNack_writeState _ _ _ (by decide) (noAddrNack_writeBusy _ _ _ h))

/-- `I2C_Stop` stores only IDLE; it preserves the invariant. -/
theorem noAddrNack_stop (env : Nat → Nat) (cfg : I2CConfigs) (m : Nat)
    (s : Sys) (h : noAddrNack s) : noAddrNack (I2C_Stop env cfg m s).2 := by
  simp only [I2C_Stop]
  split
  · exact noAddrNack_wait _ _ _ _ ⟨h.1, h.2⟩
  · exact noAddrNack_writeState _ _ _ (by decide)
      (noAddrNack_writeBusy _ _ _ (noAddrNack_wait _ _ _ _ ⟨h.1, h.2⟩))

/-- `I2C_WriteByte` records a NACK as DATA_NACK — never ADDR_NACK — even
for an address byte; it preserves the invariant. -/
theorem noAddrNack_writeByte (env : Nat → Nat) (cfg : I2CConfigs)
    (m b : Nat) (s : Sys) (h : noAddrNack s) :
    noAddrNack (I2C_WriteByte env cfg m b s).2 := by
  simp only [I2C_WriteByte]
  split
  · exact noAddrNack_wait _ _ _ _ ⟨h.1, h.2⟩
  · split
    · exact noAddrNack_writeState _ _ _ (by decide)
        (noAddrNack_wait _ _ _ _ ⟨h.1, h.2⟩)
    · exact noAddrNack_wait _ _ _ _ ⟨h.1, h.2⟩

/-- `I2C_ReadByte` stores no status itself; it preserves the invariant. -/
theorem noAddrNack_readByte (env : Nat → Nat) (cfg : I2CConfigs) (m : Nat)
    (ack : Bool) (s : Sys) (h : noAddrNack s) :
    noAddrNack (I2C_ReadByte env cfg m ack s).2 := by
  simp only [I2C_ReadByte]
  exact noAddrNack_wait _ _ _ _ ⟨h.1, h.2⟩

/-- The `WriteData` byte loop preserves the invariant. -/
theorem noAddrNack_writeLoop (env : Nat → Nat) (cfg : I2CConfigs) (m : Nat)
    (d : List Nat) : ∀ s : Sys, noAddrNack s →
    noAddrNack (writeLoop env cfg m d s).2 := by
  induction d with
  | nil => intro s h; simpa [writeLoop]
  | cons b bs ih =>
      intro s h
      simp only [writeLoop]
      split
      · exact noAddrNack_stop _ _ _ _ (noAddrNack_writeByte _ _ _ _ _ h)
      · exact ih _ (noAddrNack_writeByte _ _ _ _ _ h)

/-- The `ReadData` byte loop preserves the invariant. -/
theorem noAddrNack_readLoop (env : Nat → Nat) (cfg : I2CConfigs)
    (m len : Nat) : ∀ (r i : Nat) (s : Sys), noAddrNack s →
    noAddrNack (readLoop env cfg m len r i s).2 := by
  intro r
  induction r with
  | zero => intro i s h; simpa [readLoop]
  | succ r ih =>
      intro i s h
      simp only [readLoop]
      exact ih _ _ (noAddrNack_readByte _ _ _ _ _ h)

/-- `I2C_WriteData` preserves the invariant. -/
theorem noAddrNack_writeData (env : Nat → Nat) (cfg : I2CConfigs)
    (m a : Nat) (dOpt : Option (List Nat)) (s : Sys) (h : noAddrNack s) :
    noAddrNack (I2C_WriteData env cfg m a dOpt s).2 := by
  cases dOpt with
  | none => exact h
  | some d =>
      simp only [I2C_WriteData]
      split
      · exact h
      · split
        · exact noAddrNack_start _ _ _ _ h
        · split
          · exact noAddrNack_stop _ _ _ _ (noAddrNack_writeByte _ _ _ _ _
              (noAddrNack_start _ _ _ _ h))
          · split
            · exact noAddrNack_writeLoop _ _ _ _ _
                (noAddrNack_writeByte _ _ _ _ _ (noAddrNack_start _ _ _ _ h))
            · exact noAddrNack_stop _ _ _ _ (noAddrNack_writeLoop _ _ _ _ _
                (noAddrNack_writeByte _ _ _ _ _ (noAddrNack_start _ _ _ _ h)))

/-- `I2C_ReadData` preserves the invariant. -/
theorem noAddrNack_readData (env : Nat → Nat) (cfg : I2CConfigs)
    (m a : Nat) (bn : Bool) (n : Nat) (s : Sys) (h : noAddrNack s) :
    noAddrNack (I2C_ReadData env cfg m a bn n s).2.2 := by
  simp only [I2C_ReadData]
  split
  · exact h
  · split
    · exact noAddrNack_start _ _ _ _ h
    · split
      · exact noAddrNack_stop _ _ _ _ (noAddrNack_writeByte _ _ _ _ _
          (noAddrNack_start _ _ _ _ h))
      · exact noAddrNack_stop _ _ _ _ (noAddrNack_readLoop _ _ _ _ _ _ _
          (noAddrNack_writeByte _ _ _ _ _ (noAddrNack_start _ _ _ _ h)))

/-- `I2C_CheckDevice` preserves the invariant. -/
theorem noAddrNack_checkDevice (env : Nat → Nat) (cfg : I2CConfigs)
    (m a : Nat) (s : Sys) (h : noAddrNack s) :
    noAddrNack (I2C_CheckDevice env cfg m a s).2 := by
  simp only [I2C_CheckDevice]
  split
  · exact noAddrNack_start _ _ _ _ h
  · exact noAddrNack_stop _ _ _ _ (noAddrNack_writeByte _ _ _ _ _
      (noAddrNack_start _ _ _ _ h))

/-- Claim C9: the address-NACK status value is unreachable.  Starting from
any state in which neither unit's status is addr-NACK, none of the wait
primitive, `Start`, `Stop`, `WriteByte` (which records any NACK — address
byte included — as DATA_NACK), `ReadByte`, `WriteData`, `ReadData` or
`CheckDevice` can make any unit's status addr-NACK, for any environment,
configuration, selector, address, payload or count. -/
theorem addr_nack_unreachable (env : Nat → Nat) (cfg : I2CConfigs)
    (m tmo a b n : Nat) (ack bn : Bool) (d : Option (List Nat)) (s : Sys)
    (h : noAddrNack s) :
    noAddrNack (_I2C_WaitCondition env m tmo s).2 ∧
    noAddrNack (I2C_Start env cfg m s).2 ∧
    noAddrNack (I2C_Stop env cfg m s).2 ∧
    noAddrNack (I2C_WriteByte env cfg m b s).2 ∧
    noAddrNack (I2C_ReadByte env cfg m ack s).2 ∧
    noAddrNack (I2C_WriteData env cfg m a d s).2 ∧
    noAddrNack (I2C_ReadData env cfg m a bn n s).2.2 ∧
    noAddrNack (I2C_CheckDevice env cfg m a s).2 :=
  ⟨noAddrNack_wait _ _ _ _ h, noAddrNack_start _ _ _ _ h,
   noAddrNack_stop _ _ _ _ h, noAddrNack_writeByte _ _ _ _ _ h,
   noAddrNack_readByte _ _ _ _ _ h, noAddrNack_writeData _ _ _ _ _ _ h,
   noAddrNack_readData _ _ _ _ _ _ _ h, noAddrNack_checkDevice _ _ _ _ _ h⟩

/-- Witness for C9 at a concrete input: after a full 1-byte `WriteData`
and a full 1-byte `ReadData` from the initial state, no unit's status is
addr-NACK. -/
theorem addr_nack_unreachable_witness :
    noAddrNack (I2C_WriteData env0 cfg0 1 80 (some [5]) s0).2 ∧
    noAddrNack (I2C_ReadData env0 cfg0 1 80 false 1 s0).2.2 :=
  ⟨(addr_nack_unreachable env0 cfg0 1 1 80 5 1 true false (some [5]) s0
      (by decide)).2.2.2.2.2.1,
   (addr_nack_unreachable env0 cfg0 1 1 80 5 1 true false (some [5]) s0
      (by decide)).2.2.2.2.2.2.1⟩
